import Mathlib

/-!
Shallow embedding of `src/static/app.js` — the browser client for the
roster-management service.

The script is event-driven: each handler (`checkAuth`, the login-form submit,
the logout-button click, `fetchActivities`, `handleUnregister`, the
signup-form submit) reads and mutates a small set of mutable locations
(`authToken`, `localStorage["authToken"]`, `isAuthenticated`, the DOM nodes
`activities-list`, `activity` select, `message`, `login-message`,
`login-modal`) and performs `fetch` calls.  We model:

  * the mutable locations as fields of `ClientState`;
  * each handler as a pure step function `ClientState → outcome → ClientState × List Request`,
    where the `outcome` parameter stands for the server's response (or a
    network/parse failure, i.e. a thrown promise) and the returned
    `List Request` is the trace of HTTP calls the handler issued;
  * every `setTimeout(() => messageDiv.classList.add("hidden"), d)` call as
    appending the absolute fire time to `timers` (every timeout callback in
    the source hides `messageDiv`; none is ever cancelled — the source
    contains no `clearTimeout`);
  * the passage of time as `runUntil`, which fires all due timers (each one
    hides `messageDiv`) and discards them.
-/

/-- An activity as served by `GET /activities` and rendered by
`fetchActivities` (fields `description`, `schedule`, `max_participants`,
`participants`). -/
structure Activity where
  description : String
  schedule : String
  maxParticipants : Nat
  participants : List String
deriving Repr, DecidableEq

/-- The JSON object returned by `GET /activities`: `Object.entries` order of
activity name ↦ activity. -/
abbrev Roster := List (String × Activity)

/-- One HTTP request issued by the client (method+path+auth header of each
`fetch` call in the source). -/
inductive Request where
  | verify (token : String)
  | login (username password : String)
  | logout (token : Option String)
  | getActivities
  | signup (activity email : String) (token : Option String)
  | unregister (activity email : String) (token : Option String)
deriving Repr, DecidableEq

/-- The client's mutable state: the two token locations, the
`isAuthenticated` flag, and the DOM surfaces the handlers write to.
`timers` holds the absolute fire times of all pending
`setTimeout(... add("hidden") ...)` callbacks targeting `messageDiv`
(the only element any timeout in the source ever hides). -/
structure ClientState where
  /-- the in-memory `authToken` variable (`null` ↦ `none`) -/
  authToken : Option String
  /-- `localStorage.getItem("authToken")` (absent ↦ `none`) -/
  localStorageToken : Option String
  /-- the `isAuthenticated` variable -/
  isAuthenticated : Bool
  /-- the username shown by `updateUIForAuth` (`none` when logged out;
  the other class toggles of `updateUIForAuth` are functions of this) -/
  usernameDisplay : Option String
  /-- content of `activities-list` (cleared and rebuilt on each fetch) -/
  activitiesList : Roster
  /-- `activities-list` shows the static fetch-failure paragraph -/
  activitiesError : Bool
  /-- the `option` values appended to the `activity` select -/
  activitySelectOptions : List String
  /-- `messageDiv.textContent` -/
  messageText : String
  /-- `messageDiv.className` (`"success"` or `"error"`) -/
  messageKind : String
  /-- `messageDiv` has the `hidden` class -/
  messageHidden : Bool
  /-- `loginMessage.textContent` -/
  loginMessageText : String
  /-- `loginMessage` has the `hidden` class -/
  loginMessageHidden : Bool
  /-- `login-modal` has the `hidden` class -/
  loginModalHidden : Bool
  /-- absolute fire times of pending `setTimeout` hide-callbacks -/
  timers : List Nat
deriving Repr, DecidableEq

/-- State at `DOMContentLoaded`: `authToken` is initialized from
`localStorage`, `isAuthenticated` is `false`, all message surfaces hidden. -/
def initState (persisted : Option String) : ClientState :=
  { authToken := persisted
    localStorageToken := persisted
    isAuthenticated := false
    usernameDisplay := none
    activitiesList := []
    activitiesError := false
    activitySelectOptions := []
    messageText := ""
    messageKind := ""
    messageHidden := true
    loginMessageText := ""
    loginMessageHidden := true
    loginModalHidden := true
    timers := [] }

/-- `updateUIForAuth(username)`: records the displayed username (all other
effects of the source function are class toggles derived from whether
`username` is truthy). -/
def updateUIForAuth (s : ClientState) (username : Option String) : ClientState :=
  { s with usernameDisplay := username }

/-- Outcome of the `GET /auth/verify` call: either a parsed JSON body
(`authenticated` flag plus optional `username`), or a thrown fetch/parse
error (the `catch` branch). -/
inductive VerifyOutcome where
  | ok (authenticated : Bool) (username : Option String)
  | netError
deriving Repr, DecidableEq

/-- `checkAuth()`: if an in-memory token exists, verify it.  On
`authenticated` true: set `isAuthenticated` and show the username.  On
`authenticated` false: remove the persisted token, null the in-memory token,
clear the flag.  On a thrown error: clear only the flag (the tokens are left
in place).  Without a token: no request. -/
def checkAuth (s : ClientState) (o : VerifyOutcome) : ClientState × List Request :=
  match s.authToken with
  | some tok =>
    match o with
    | .ok true u =>
        (updateUIForAuth { s with isAuthenticated := true } u, [.verify tok])
    | .ok false _ =>
        (updateUIForAuth
          { s with localStorageToken := none, authToken := none, isAuthenticated := false }
          none, [.verify tok])
    | .netError =>
        (updateUIForAuth { s with isAuthenticated := false } none, [.verify tok])
  | none => (updateUIForAuth s none, [])

/-- Outcome of the `GET /activities` call: the parsed activity mapping, or a
thrown fetch/parse error. -/
inductive FetchOutcome where
  | ok (activities : Roster)
  | netError
deriving Repr, DecidableEq

/-- `fetchActivities()`: on success, clears `activities-list` and rebuilds it
from the response, and appends one `option` per activity to the `activity`
select — the select is never cleared, so options accumulate across calls.
On a thrown error, replaces the list with the static failure paragraph. -/
def fetchActivities (s : ClientState) (o : FetchOutcome) : ClientState × List Request :=
  match o with
  | .ok activities =>
      ({ s with
          activitiesList := activities
          activitiesError := false
          activitySelectOptions := s.activitySelectOptions ++ activities.map Prod.fst },
       [.getActivities])
  | .netError =>
      ({ s with activitiesList := [], activitiesError := true }, [.getActivities])

/-- Outcome of the `POST /auth/login` call: `response.ok` with a parsed
`{token, username}` body, a non-ok status with a parsed body (optional
`detail`), or a thrown fetch/parse error. -/
inductive LoginOutcome where
  | ok (token : String) (username : Option String)
  | errStatus (detail : Option String)
  | netError
deriving Repr, DecidableEq

/-- The login-form submit handler: on `response.ok`, store the token in
memory and in `localStorage`, set `isAuthenticated`, show the username, hide
the modal and its message, and show the success notification with a 3000 ms
hide timeout.  On a non-ok status, show `detail` (or the generic fallback)
in the modal's `login-message`.  On a thrown error, show the generic network
failure text there.  Neither failure branch schedules any timeout. -/
def loginStep (s : ClientState) (username password : String) (o : LoginOutcome)
    (now : Nat) : ClientState × List Request :=
  match o with
  | .ok tok u =>
      ({ updateUIForAuth
          { s with authToken := some tok, localStorageToken := some tok,
                   isAuthenticated := true } u with
          loginModalHidden := true
          loginMessageHidden := true
          messageText := "Login successful! You can now register students."
          messageKind := "success"
          messageHidden := false
          timers := s.timers ++ [now + 3000] },
       [.login username password])
  | .errStatus d =>
      ({ s with loginMessageText := d.getD "Login failed"
                loginMessageHidden := false },
       [.login username password])
  | .netError =>
      ({ s with loginMessageText := "Login failed. Please try again."
                loginMessageHidden := false },
       [.login username password])

/-- Outcome of the `POST /auth/logout` call (its response is never read; only
a thrown error is distinguishable, and it is merely logged). -/
inductive LogoutOutcome where
  | ok
  | netError
deriving Repr, DecidableEq

/-- The logout-button click handler: issues the best-effort logout request,
then — on either outcome — removes the persisted token, nulls the in-memory
token, clears `isAuthenticated`, and shows the logout notification with a
3000 ms hide timeout. -/
def logoutStep (s : ClientState) (o : LogoutOutcome) (now : Nat) :
    ClientState × List Request :=
  match o with
  | _ =>
      ({ updateUIForAuth
          { s with localStorageToken := none, authToken := none,
                   isAuthenticated := false } none with
          messageText := "Logged out successfully."
          messageKind := "success"
          messageHidden := false
          timers := s.timers ++ [now + 3000] },
       [.logout s.authToken])

/-- Outcome of a signup/unregister call: `response.ok` with a parsed
`{message}` body, a non-ok status with a parsed body (optional `detail`), or
a thrown fetch/parse error. -/
inductive ActionOutcome where
  | ok (message : String)
  | errStatus (detail : Option String)
  | netError
deriving Repr, DecidableEq

/-- `handleUnregister(event)`: if not authenticated, show the login-required
notice with a 5000 ms timeout and return without any request.  Otherwise
issue the `DELETE .../unregister` call; on `response.ok` show the server
message, trigger `fetchActivities()` (whose outcome is `ro`), and schedule a
5000 ms hide timeout; on a non-ok status show `detail` (or the fallback) with
a 5000 ms timeout; the `catch` branch shows the generic failure text and
schedules no timeout. -/
def handleUnregister (s : ClientState) (activity email : String)
    (o : ActionOutcome) (ro : FetchOutcome) (now : Nat) :
    ClientState × List Request :=
  if s.isAuthenticated = false then
    ({ s with messageText := "Please login as a teacher to unregister students."
              messageKind := "error"
              messageHidden := false
              timers := s.timers ++ [now + 5000] }, [])
  else
    match o with
    | .ok message =>
        let s1 := { s with messageText := message, messageKind := "success" }
        let r := fetchActivities s1 ro
        ({ r.1 with messageHidden := false, timers := r.1.timers ++ [now + 5000] },
         .unregister activity email s.authToken :: r.2)
    | .errStatus d =>
        ({ s with messageText := d.getD "An error occurred"
                  messageKind := "error"
                  messageHidden := false
                  timers := s.timers ++ [now + 5000] },
         [.unregister activity email s.authToken])
    | .netError =>
        ({ s with messageText := "Failed to unregister. Please try again."
                  messageKind := "error"
                  messageHidden := false },
         [.unregister activity email s.authToken])

/-- The signup-form submit handler: identical control flow to
`handleUnregister` with the signup texts and the `POST .../signup` call
(`signupForm.reset()` on success touches only form inputs, not modeled). -/
def signupSubmit (s : ClientState) (email activity : String)
    (o : ActionOutcome) (ro : FetchOutcome) (now : Nat) :
    ClientState × List Request :=
  if s.isAuthenticated = false then
    ({ s with messageText := "Please login as a teacher to register students."
              messageKind := "error"
              messageHidden := false
              timers := s.timers ++ [now + 5000] }, [])
  else
    match o with
    | .ok message =>
        let s1 := { s with messageText := message, messageKind := "success" }
        let r := fetchActivities s1 ro
        ({ r.1 with messageHidden := false, timers := r.1.timers ++ [now + 5000] },
         .signup activity email s.authToken :: r.2)
    | .errStatus d =>
        ({ s with messageText := d.getD "An error occurred"
                  messageKind := "error"
                  messageHidden := false
                  timers := s.timers ++ [now + 5000] },
         [.signup activity email s.authToken])
    | .netError =>
        ({ s with messageText := "Failed to sign up. Please try again."
                  messageKind := "error"
                  messageHidden := false },
         [.signup activity email s.authToken])

/-- The modal close handler (the `.close` click listener and the
click-outside listener): hides the modal and the login message
(`loginForm.reset()` touches only form inputs, not modeled). -/
def closeModalStep (s : ClientState) : ClientState :=
  { s with loginModalHidden := true, loginMessageHidden := true }

/-- Advance the event loop to absolute time `t`: every pending timeout whose
fire time has been reached runs (each one adds `hidden` to `messageDiv`) and
is removed. -/
def runUntil (s : ClientState) (t : Nat) : ClientState :=
  { s with
      messageHidden := s.messageHidden || s.timers.any fun f => decide (f ≤ t)
      timers := s.timers.filter fun f => decide (t < f) }

/-- The parts of client state a failed or denied action must leave alone:
the roster snapshot and dropdown, both token locations, and the session
flags. -/
def localStateUnchanged (s s2 : ClientState) : Prop :=
  s2.activitiesList = s.activitiesList ∧
  s2.activitiesError = s.activitiesError ∧
  s2.activitySelectOptions = s.activitySelectOptions ∧
  s2.authToken = s.authToken ∧
  s2.localStorageToken = s.localStorageToken ∧
  s2.isAuthenticated = s.isAuthenticated ∧
  s2.usernameDisplay = s.usernameDisplay

/-! ## Claim theorems -/

/-- Claim C1: whenever the session is not verified (`isAuthenticated = false`),
every attempted unregister and register is denied before any network
activity — no HTTP call is issued, the roster snapshot, tokens and session
flags are untouched, and the login-required notice is shown through the
message surface. -/
theorem C1_gate_denies_when_unverified (s : ClientState) (a e em a2 : String)
    (o o2 : ActionOutcome) (ro ro2 : FetchOutcome) (now now2 : Nat) :
    (handleUnregister { s with isAuthenticated := false } a e o ro now).2 = [] ∧
    localStateUnchanged { s with isAuthenticated := false }
      (handleUnregister { s with isAuthenticated := false } a e o ro now).1 ∧
    (handleUnregister { s with isAuthenticated := false } a e o ro now).1.messageText =
      "Please login as a teacher to unregister students." ∧
    (handleUnregister { s with isAuthenticated := false } a e o ro now).1.messageKind = "error" ∧
    (handleUnregister { s with isAuthenticated := false } a e o ro now).1.messageHidden = false ∧
    (signupSubmit { s with isAuthenticated := false } em a2 o2 ro2 now2).2 = [] ∧
    localStateUnchanged { s with isAuthenticated := false }
      (signupSubmit { s with isAuthenticated := false } em a2 o2 ro2 now2).1 ∧
    (signupSubmit { s with isAuthenticated := false } em a2 o2 ro2 now2).1.messageText =
      "Please login as a teacher to register students." ∧
    (signupSubmit { s with isAuthenticated := false } em a2 o2 ro2 now2).1.messageKind = "error" ∧
    (signupSubmit { s with isAuthenticated := false } em a2 o2 ro2 now2).1.messageHidden = false := by
  simp [handleUnregister, signupSubmit, localStateUnchanged]

/-- Claim C2, counterexample: with persisted token `"tok"`, a startup
verification that fails with a network/parse error leaves both the persisted
and the in-memory token in place (the claim says the persisted token is
cleared and the token is absent), even though `isAuthenticated` is reset. -/
theorem C2_counterexample_netError_keeps_token :
    (checkAuth (initState (some "tok")) VerifyOutcome.netError).1.localStorageToken
        = some "tok" ∧
    (checkAuth (initState (some "tok")) VerifyOutcome.netError).1.authToken = some "tok" ∧
    (checkAuth (initState (some "tok")) VerifyOutcome.netError).1.isAuthenticated = false := by
  decide

/-- Claim C2, amended: when startup verification of a persisted token returns
`authenticated=false`, the persisted token is cleared and the session is
fully reset (token absent, username absent, unverified); when the call fails
with a network/parse error, the session is marked unverified and the username
display cleared (fail closed for gating), but the persisted and in-memory
token are left unchanged. -/
theorem C2_amended_verify_failure (s : ClientState) (tok : String) (u : Option String) :
    (checkAuth { s with authToken := some tok } (.ok false u)).1.localStorageToken = none ∧
    (checkAuth { s with authToken := some tok } (.ok false u)).1.authToken = none ∧
    (checkAuth { s with authToken := some tok } (.ok false u)).1.isAuthenticated = false ∧
    (checkAuth { s with authToken := some tok } (.ok false u)).1.usernameDisplay = none ∧
    (checkAuth { s with authToken := some tok } VerifyOutcome.netError).1.isAuthenticated = false ∧
    (checkAuth { s with authToken := some tok } VerifyOutcome.netError).1.usernameDisplay = none ∧
    (checkAuth { s with authToken := some tok } VerifyOutcome.netError).1.localStorageToken =
      s.localStorageToken ∧
    (checkAuth { s with authToken := some tok } VerifyOutcome.netError).1.authToken = some tok := by
  simp [checkAuth, updateUIForAuth]

/-- Claim C3: after a successful unregister or signup from a verified
session, the client issues exactly one roster refresh (`GET /activities`,
and it is the only one in the trace), and the resulting snapshot is exactly
the mapping the refresh returned — the participant is never appended or
removed locally (the snapshot does not depend on the mutated email). -/
theorem C3_refresh_after_success (s : ClientState) (a e em m m2 : String)
    (roster roster2 : Roster) (now now2 : Nat) :
    (handleUnregister { s with isAuthenticated := true } a e (.ok m) (.ok roster) now).2 =
      [Request.unregister a e s.authToken, Request.getActivities] ∧
    List.count Request.getActivities
      (handleUnregister { s with isAuthenticated := true } a e (.ok m) (.ok roster) now).2 = 1 ∧
    (handleUnregister { s with isAuthenticated := true } a e (.ok m) (.ok roster) now).1.activitiesList
      = roster ∧
    (signupSubmit { s with isAuthenticated := true } em a (.ok m2) (.ok roster2) now2).2 =
      [Request.signup a em s.authToken, Request.getActivities] ∧
    List.count Request.getActivities
      (signupSubmit { s with isAuthenticated := true } em a (.ok m2) (.ok roster2) now2).2 = 1 ∧
    (signupSubmit { s with isAuthenticated := true } em a (.ok m2) (.ok roster2) now2).1.activitiesList
      = roster2 := by
  simp [handleUnregister, signupSubmit, fetchActivities, List.count_cons]

/-- Claim C4: every failed unregister or signup (non-ok HTTP status or thrown
network error) reports the error through the message surface — the server
`detail` when present, the generic fallback otherwise — issues no refresh
(the trace holds only the mutating request itself), and leaves the roster
snapshot, dropdown, tokens and session flags unchanged. -/
theorem C4_failure_reports_without_mutation (s : ClientState) (a e em : String)
    (d d2 : Option String) (ro : FetchOutcome) (now : Nat) :
    (handleUnregister { s with isAuthenticated := true } a e (.errStatus d) ro now).2 =
      [Request.unregister a e s.authToken] ∧
    localStateUnchanged { s with isAuthenticated := true }
      (handleUnregister { s with isAuthenticated := true } a e (.errStatus d) ro now).1 ∧
    (handleUnregister { s with isAuthenticated := true } a e (.errStatus d) ro now).1.messageText =
      d.getD "An error occurred" ∧
    (handleUnregister { s with isAuthenticated := true } a e (.errStatus d) ro now).1.messageKind =
      "error" ∧
    (handleUnregister { s with isAuthenticated := true } a e (.errStatus d) ro now).1.messageHidden =
      false ∧
    (handleUnregister { s with isAuthenticated := true } a e .netError ro now).2 =
      [Request.unregister a e s.authToken] ∧
    localStateUnchanged { s with isAuthenticated := true }
      (handleUnregister { s with isAuthenticated := true } a e .netError ro now).1 ∧
    (handleUnregister { s with isAuthenticated := true } a e .netError ro now).1.messageText =
      "Failed to unregister. Please try again." ∧
    (signupSubmit { s with isAuthenticated := true } em a (.errStatus d2) ro now).2 =
      [Request.signup a em s.authToken] ∧
    localStateUnchanged { s with isAuthenticated := true }
      (signupSubmit { s with isAuthenticated := true } em a (.errStatus d2) ro now).1 ∧
    (signupSubmit { s with isAuthenticated := true } em a (.errStatus d2) ro now).1.messageText =
      d2.getD "An error occurred" ∧
    (signupSubmit { s with isAuthenticated := true } em a .netError ro now).2 =
      [Request.signup a em s.authToken] ∧
    localStateUnchanged { s with isAuthenticated := true }
      (signupSubmit { s with isAuthenticated := true } em a .netError ro now).1 ∧
    (signupSubmit { s with isAuthenticated := true } em a .netError ro now).1.messageText =
      "Failed to sign up. Please try again." := by
  simp [handleUnregister, signupSubmit, localStateUnchanged]

/-- Claim C5: login stores the returned token persistently and transitions to
a verified session with the returned username exactly when the response is
ok; on a non-ok status the server `detail` (or the generic fallback) is shown
in the modal and neither the tokens nor the session flag change; a thrown
network/parse error likewise shows the generic text and changes nothing. -/
theorem C5_login_transitions (s : ClientState) (u p tok : String)
    (uo : Option String) (d : Option String) (now : Nat) :
    (loginStep s u p (.ok tok uo) now).1.localStorageToken = some tok ∧
    (loginStep s u p (.ok tok uo) now).1.authToken = some tok ∧
    (loginStep s u p (.ok tok uo) now).1.isAuthenticated = true ∧
    (loginStep s u p (.ok tok uo) now).1.usernameDisplay = uo ∧
    (loginStep s u p (.errStatus d) now).1.localStorageToken = s.localStorageToken ∧
    (loginStep s u p (.errStatus d) now).1.authToken = s.authToken ∧
    (loginStep s u p (.errStatus d) now).1.isAuthenticated = s.isAuthenticated ∧
    (loginStep s u p (.errStatus d) now).1.loginMessageText = d.getD "Login failed" ∧
    (loginStep s u p (.errStatus d) now).1.loginMessageHidden = false ∧
    (loginStep s u p LoginOutcome.netError now).1.localStorageToken = s.localStorageToken ∧
    (loginStep s u p LoginOutcome.netError now).1.authToken = s.authToken ∧
    (loginStep s u p LoginOutcome.netError now).1.isAuthenticated = s.isAuthenticated ∧
    (loginStep s u p LoginOutcome.netError now).1.loginMessageText =
      "Login failed. Please try again." := by
  simp [loginStep, updateUIForAuth]

/-- Claim C6: logout always clears the persisted token and resets the local
session (token absent, unverified), whatever the outcome of the best-effort
server-side invalidation call. -/
theorem C6_logout_always_clears (s : ClientState) (o : LogoutOutcome) (now : Nat) :
    (logoutStep s o now).1.localStorageToken = none ∧
    (logoutStep s o now).1.authToken = none ∧
    (logoutStep s o now).1.isAuthenticated = false ∧
    (logoutStep s o now).1.usernameDisplay = none ∧
    (logoutStep s o now).2 = [Request.logout s.authToken] := by
  simp [logoutStep, updateUIForAuth]

/-! ## Concrete scenario states for the counterexample theorems -/

/-- The spec's sample activity (`Chess Club` with one participant). -/
def chessClub : Activity :=
  { description := "Learn chess", schedule := "Fridays", maxParticipants := 10,
    participants := ["a@x.com"] }

/-- A one-activity roster as returned by `GET /activities`. -/
def sampleRoster : Roster := [("Chess Club", chessClub)]

/-- A state with a verified session (as after a successful `checkAuth`). -/
def authedState : ClientState :=
  { initState (some "tok") with isAuthenticated := true }

/-- Claim C7: the code violates the wholesale-replace claim for the dropdown.
Two successive successful fetches of the same one-activity roster leave the
rendered list with exactly that roster, but the `activity` select ends with
TWO options for the single activity — `fetchActivities` never clears the
select, so options accumulate across refreshes. -/
theorem C7_dropdown_accumulates_duplicates :
    (fetchActivities (fetchActivities (initState none) (.ok sampleRoster)).1
        (.ok sampleRoster)).1.activitiesList = sampleRoster ∧
    (fetchActivities (fetchActivities (initState none) (.ok sampleRoster)).1
        (.ok sampleRoster)).1.activitySelectOptions = ["Chess Club", "Chess Club"] := by
  decide

/-- State after a first failed unregister at time 0 (5000 ms timer pending). -/
def overlapFirst : ClientState :=
  (handleUnregister authedState "Chess Club" "a@x.com"
    (ActionOutcome.errStatus (some "Activity is full")) (FetchOutcome.ok []) 0).1

/-- State after a second failed unregister at time 2000, shown while the
first notification's timer (fire time 5000) is still pending. -/
def overlapSecond : ClientState :=
  (handleUnregister (runUntil overlapFirst 2000) "Chess Club" "b@x.com"
    (ActionOutcome.errStatus (some "Student is not registered")) (FetchOutcome.ok []) 2000).1

/-- Claim C8, counterexample: the second notification (shown at 2000, own
interval ending at 7000) is already hidden at time 5000, when the FIRST
notification's still-pending timer fires — no `clearTimeout` exists, so a new
show does not reset the dismissal timer. -/
theorem C8_counterexample_stale_timer_hides_early :
    overlapSecond.messageText = "Student is not registered" ∧
    overlapSecond.messageHidden = false ∧
    (runUntil overlapSecond 5000).messageHidden = true ∧
    5000 < 2000 + 5000 := by
  decide

/-- Claim C8, amended: a new show replaces the displayed text and makes the
single message surface visible, but dismissal timers of earlier notifications
are not cancelled — every pending fire time survives the new show, and once
it is reached the new notification is hidden, possibly before its own
interval elapses. -/
theorem C8_amended_pending_timer_survives_show (s : ClientState) (f : Nat)
    (a e : String) (d : Option String) (ro : FetchOutcome) (now : Nat) :
    (handleUnregister { s with isAuthenticated := true, timers := f :: s.timers }
        a e (.errStatus d) ro now).1.messageText = d.getD "An error occurred" ∧
    (handleUnregister { s with isAuthenticated := true, timers := f :: s.timers }
        a e (.errStatus d) ro now).1.messageHidden = false ∧
    f ∈ (handleUnregister { s with isAuthenticated := true, timers := f :: s.timers }
        a e (.errStatus d) ro now).1.timers ∧
    (runUntil (handleUnregister { s with isAuthenticated := true, timers := f :: s.timers }
        a e (.errStatus d) ro now).1 f).messageHidden = true := by
  simp [handleUnregister, runUntil]

/-- State after an unregister whose fetch threw, from a verified session with
no pending timers. -/
def unregNetError : ClientState :=
  (handleUnregister authedState "Chess Club" "a@x.com"
    ActionOutcome.netError (FetchOutcome.ok []) 0).1

/-- Claim C9, counterexample: a roster-action failure notification produced
by a thrown network error (the `catch` branch) schedules no timeout at all,
so it is still present at 0 + 5000 + 1 — the claim's "every roster-action
outcome is dismissed after 5000 ms" fails. -/
theorem C9_counterexample_netError_not_dismissed :
    unregNetError.messageText = "Failed to unregister. Please try again." ∧
    unregNetError.messageHidden = false ∧
    unregNetError.timers = [] ∧
    (runUntil unregNetError 5001).messageHidden = false := by
  decide

/-- Claim C9, amended: notifications produced with a scheduled timeout are
auto-dismissed — login and logout successes after 3000 ms, signup/unregister
successes, HTTP-status failures, and the gate-denial notice after 5000 ms —
but the signup/unregister `catch` branches (thrown network errors) schedule
no timeout, so those notifications are never auto-dismissed. -/
theorem C9_amended_dismissal_by_class (s : ClientState) (o : LogoutOutcome)
    (u p tok a e m m2 : String) (uo : Option String) (d d2 d3 : Option String)
    (ro : FetchOutcome) (now : Nat) :
    (runUntil (loginStep s u p (.ok tok uo) now).1 (now + 3000)).messageHidden = true ∧
    (runUntil (logoutStep s o now).1 (now + 3000)).messageHidden = true ∧
    (runUntil (handleUnregister { s with isAuthenticated := true } a e (.ok m) ro now).1
        (now + 5000)).messageHidden = true ∧
    (runUntil (handleUnregister { s with isAuthenticated := true } a e (.errStatus d) ro now).1
        (now + 5000)).messageHidden = true ∧
    (runUntil (signupSubmit { s with isAuthenticated := true } e a (.ok m2) ro now).1
        (now + 5000)).messageHidden = true ∧
    (runUntil (signupSubmit { s with isAuthenticated := true } e a (.errStatus d2) ro now).1
        (now + 5000)).messageHidden = true ∧
    (runUntil (handleUnregister { s with isAuthenticated := false } a e (.errStatus d3) ro now).1
        (now + 5000)).messageHidden = true ∧
    (handleUnregister { s with isAuthenticated := true, timers := [] } a e
        ActionOutcome.netError ro now).1.timers = [] ∧
    (∀ t, (runUntil (handleUnregister { s with isAuthenticated := true, timers := [] } a e
        ActionOutcome.netError ro now).1 t).messageHidden = false) ∧
    (signupSubmit { s with isAuthenticated := true, timers := [] } e a
        ActionOutcome.netError ro now).1.timers = [] ∧
    (∀ t, (runUntil (signupSubmit { s with isAuthenticated := true, timers := [] } e a
        ActionOutcome.netError ro now).1 t).messageHidden = false) := by
  cases ro <;> cases o <;>
    simp [loginStep, logoutStep, handleUnregister, signupSubmit, fetchActivities,
      runUntil, updateUIForAuth]

/-- State after a signup whose fetch threw, from a verified session. -/
def signupNetError : ClientState :=
  (signupSubmit authedState "b@x.com" "Chess Club"
    ActionOutcome.netError (FetchOutcome.ok []) 0).1

/-- Claim C10, counterexample: the login-error notice is not unique in never
auto-expiring — a signup failure from a thrown network error also schedules
no dismissal timer and remains visible indefinitely, refuting "unlike every
other notification class". -/
theorem C10_counterexample_not_unique_class :
    signupNetError.messageText = "Failed to sign up. Please try again." ∧
    signupNetError.messageHidden = false ∧
    signupNetError.timers = [] ∧
    (runUntil signupNetError 1000000).messageHidden = false := by
  decide

/-- Claim C10, amended: every failed login attempt (non-ok status or thrown
error) renders its notice in the modal's `login-message` with no dismissal
timer scheduled; no passage of time ever hides it — it stays until the modal
is closed (which hides it) or a later failed attempt replaces its text.
(Roster-action network-error notices likewise never auto-expire.) -/
theorem C10_amended_login_error_persists (s : ClientState) (u p u2 p2 : String)
    (d d2 : Option String) (now now2 t t2 : Nat) :
    (loginStep s u p (.errStatus d) now).1.loginMessageText = d.getD "Login failed" ∧
    (loginStep s u p (.errStatus d) now).1.loginMessageHidden = false ∧
    (loginStep s u p (.errStatus d) now).1.timers = s.timers ∧
    (runUntil (loginStep s u p (.errStatus d) now).1 t).loginMessageHidden = false ∧
    (loginStep s u p LoginOutcome.netError now).1.loginMessageText =
      "Login failed. Please try again." ∧
    (loginStep s u p LoginOutcome.netError now).1.loginMessageHidden = false ∧
    (loginStep s u p LoginOutcome.netError now).1.timers = s.timers ∧
    (runUntil (loginStep s u p LoginOutcome.netError now).1 t2).loginMessageHidden = false ∧
    (closeModalStep (loginStep s u p (.errStatus d) now).1).loginMessageHidden = true ∧
    (loginStep (loginStep s u p (.errStatus d) now).1 u2 p2 (.errStatus d2) now2).1.loginMessageText
      = d2.getD "Login failed" := by
  simp [loginStep, runUntil, closeModalStep]
